import Mathlib

/-!
Verification of the specification of `src/tools/extractor_common/CascHandles.cpp`,
TrinityCore's thin wrapper around the external CascLib storage-archive library.

The wrapper code is embedded shallowly:

* `HumanReadableCASCError` and the two deleters are pure and are translated
  directly from the source.
* The open/close/query wrappers call the external CascLib routines and
  touch the process-global last-error state.  CascLib is not part of this
  repository, so those externals are modelled as an abstract environment
  (`CascApi`): each external call is an arbitrary function of its arguments
  and of the current error state.  Wrapper properties are then proved for
  every possible environment behaviour.
* The seek/read wrappers forward to CascLib routines whose file-cursor
  semantics the spec describes; those are modelled concretely from the
  spec's words over an explicit file state (`ModelFile`).

Machine integers: `DWORD` is modelled as `Nat` (values < 2^32 where it
matters, with explicit `% 2 ^ 32` truncation), `LONGLONG` as `Int`.
-/

namespace CASC

/-- Status-code constants referenced by the source.  The numeric values are
the standard Windows error codes (winerror.h), which CascLib's portability
header reproduces on non-Windows platforms.  Only their distinctness and
the fact that ERROR_SUCCESS is zero matter for the claims. -/
def ERROR_SUCCESS : Nat := 0

def ERROR_FILE_NOT_FOUND : Nat := 2

def ERROR_ACCESS_DENIED : Nat := 5

def ERROR_INVALID_HANDLE : Nat := 6

def ERROR_NOT_ENOUGH_MEMORY : Nat := 8

def ERROR_BAD_FORMAT : Nat := 11

def ERROR_NO_MORE_FILES : Nat := 18

def ERROR_HANDLE_EOF : Nat := 38

def ERROR_NOT_SUPPORTED : Nat := 50

def ERROR_INVALID_PARAMETER : Nat := 87

def ERROR_DISK_FULL : Nat := 112

def ERROR_INSUFFICIENT_BUFFER : Nat := 122

def ERROR_ALREADY_EXISTS : Nat := 183

def ERROR_CAN_NOT_COMPLETE : Nat := 1003

def ERROR_FILE_CORRUPT : Nat := 1392

def ERROR_FILE_ENCRYPTED : Nat := 6002

/-- CascLib open-flag constants (CascLib.h). -/
def CASC_OPEN_BY_NAME : Nat := 1

def CASC_OPEN_BY_FILEID : Nat := 4

def CASC_OVERCOME_ENCRYPTED : Nat := 16

/-- `CASC_INVALID_POS` is `(DWORD)-1`. -/
def CASC_INVALID_POS : Nat := 4294967295

/-- Embedding of `CASC::HumanReadableCASCError` (CascHandles.cpp, lines
22-44): the C `switch` over the status code, one arm per defined code,
with the `default` arm returning "UNKNOWN".  The `DWORD` argument is a
`Nat` (an unsigned 32-bit value; negative C ints convert modulo 2^32
before the call, see `toDWORD`). -/
def HumanReadableCASCError (error : Nat) : String :=
  if error = ERROR_SUCCESS then "SUCCESS"
  else if error = ERROR_FILE_CORRUPT then "FILE_CORRUPT"
  else if error = ERROR_CAN_NOT_COMPLETE then "CAN_NOT_COMPLETE"
  else if error = ERROR_HANDLE_EOF then "HANDLE_EOF"
  else if error = ERROR_NO_MORE_FILES then "NO_MORE_FILES"
  else if error = ERROR_BAD_FORMAT then "BAD_FORMAT"
  else if error = ERROR_INSUFFICIENT_BUFFER then "INSUFFICIENT_BUFFER"
  else if error = ERROR_ALREADY_EXISTS then "ALREADY_EXISTS"
  else if error = ERROR_DISK_FULL then "DISK_FULL"
  else if error = ERROR_INVALID_PARAMETER then "INVALID_PARAMETER"
  else if error = ERROR_NOT_SUPPORTED then "NOT_SUPPORTED"
  else if error = ERROR_NOT_ENOUGH_MEMORY then "NOT_ENOUGH_MEMORY"
  else if error = ERROR_INVALID_HANDLE then "INVALID_HANDLE"
  else if error = ERROR_ACCESS_DENIED then "ACCESS_DENIED"
  else if error = ERROR_FILE_NOT_FOUND then "FILE_NOT_FOUND"
  else if error = ERROR_FILE_ENCRYPTED then "FILE_ENCRYPTED"
  else "UNKNOWN"

/-- Conversion of a C signed integer to the unsigned 32-bit `DWORD`
parameter type: reduction modulo 2^32 (two's complement). -/
def toDWORD (i : Int) : Nat := (i % 2 ^ 32).toNat

/-- The list of the sixteen status codes handled by named `case` arms of
`HumanReadableCASCError`. -/
def definedCASCErrorCodes : List Nat :=
  [ERROR_SUCCESS, ERROR_FILE_CORRUPT, ERROR_CAN_NOT_COMPLETE, ERROR_HANDLE_EOF,
   ERROR_NO_MORE_FILES, ERROR_BAD_FORMAT, ERROR_INSUFFICIENT_BUFFER,
   ERROR_ALREADY_EXISTS, ERROR_DISK_FULL, ERROR_INVALID_PARAMETER,
   ERROR_NOT_SUPPORTED, ERROR_NOT_ENOUGH_MEMORY, ERROR_INVALID_HANDLE,
   ERROR_ACCESS_DENIED, ERROR_FILE_NOT_FOUND, ERROR_FILE_ENCRYPTED]

/-- Raw CascLib `HANDLE` (a `void*`): null, the `INVALID_HANDLE_VALUE`
sentinel (`(HANDLE)-1`), or some valid pointer value. -/
inductive PtrHandle where
  | nullptr : PtrHandle
  | invalidHandleValue : PtrHandle
  | valid (id : Nat) : PtrHandle
deriving DecidableEq

/-- An underlying close call made by a deleter; the deleters are modelled
as returning the list of close calls they perform. -/
inductive CloseCall where
  | closeStorage (h : PtrHandle) : CloseCall
  | closeFile (h : PtrHandle) : CloseCall
deriving DecidableEq

/-- Embedding of `CASC::StorageDeleter::operator()` (lines 46-50): calls
`CascCloseStorage` only when the raw handle is neither null nor
`INVALID_HANDLE_VALUE`.  Result: the list of close calls performed. -/
def StorageDeleter (handle : PtrHandle) : List CloseCall :=
  if handle ≠ PtrHandle.nullptr ∧ handle ≠ PtrHandle.invalidHandleValue then
    [CloseCall.closeStorage handle]
  else
    []

/-- Embedding of `CASC::FileDeleter::operator()` (lines 52-56): calls
`CascCloseFile` only when the raw handle is neither null nor
`INVALID_HANDLE_VALUE`. -/
def FileDeleter (handle : PtrHandle) : List CloseCall :=
  if handle ≠ PtrHandle.nullptr ∧ handle ≠ PtrHandle.invalidHandleValue then
    [CloseCall.closeFile handle]
  else
    []

/-- The process-global error channel read by `GetLastError` and written by
`SetLastError`. -/
structure CascState where
  lastError : Nat
deriving DecidableEq

/-- The argument of the external `CascOpenFile` call: either a file-name
string (`CASC_OPEN_BY_NAME`) or a numeric file-data identifier cast with
`CASC_FILE_DATA_ID` (`CASC_OPEN_BY_FILEID`). -/
inductive FileSpec where
  | name (fileName : String) : FileSpec
  | fileDataId (id : Nat) : FileSpec
deriving DecidableEq

/-- Abstract model of the external CascLib entry points used by the
wrapper.  CascLib is an opaque third-party library (not part of this
repository), so each entry point is an arbitrary function of its
arguments and of the current process-global error state; it returns its
results together with the error state it leaves behind.  Wrapper theorems
quantify over every such environment. -/
structure CascApi where
  cascOpenStorage : String → Nat → CascState → Bool × PtrHandle × CascState
  cascCloseStorage : PtrHandle → CascState → CascState
  cascOpenFile : PtrHandle → FileSpec → Nat → Nat → CascState → Bool × PtrHandle × CascState
  cascCloseFile : PtrHandle → CascState → CascState
  cascGetStorageInfo : PtrHandle → Nat → CascState → Bool × Nat × CascState

/-- `StorageHandle`/`FileHandle` are `std::unique_ptr` wrappers; an empty
handle is `none`.  `.get()` on an empty handle yields `nullptr`. -/
def rawGet : Option PtrHandle → PtrHandle
  | some h => h
  | none => PtrHandle.nullptr

/-- Embedding of `CASC::OpenStorage` (lines 58-72).  Result: the returned
handle (`none` = empty `StorageHandle()`), the final error state, and the
diagnostic lines printed.  On failure the code captures `GetLastError()`
right after the open attempt, prints a diagnostic, makes a best-effort
`CascCloseStorage` call on the partially-initialized handle, then restores
the captured code with `SetLastError` before returning. -/
def OpenStorage (api : CascApi) (path : String) (localeMask : Nat)
    (st : CascState) : Option PtrHandle × CascState × List String :=
  let r := api.cascOpenStorage path localeMask st
  if r.1 = true then
    (some r.2.1, r.2.2, ["Opened casc storage " ++ path])
  else
    let lastError := r.2.2.lastError
    let log := ["Error opening casc storage " ++ path ++ ": " ++
      HumanReadableCASCError lastError]
    let st2 := api.cascCloseStorage r.2.1 r.2.2
    (none, { st2 with lastError := lastError }, log)

/-- CascLib storage-info class selectors (`CASC_STORAGE_INFO_CLASS` enum
members used by the source); only distinctness matters here. -/
def CascStorageInstalledLocales : Nat := 3

def CascStorageProduct : Nat := 4

/-- Embedding of the file-local template `CASC::GetStorageInfo`
(lines 76-81): forwards to `CascGetStorageInfo` on the raw handle.  The
queried record is modelled as the returned `Nat` value (for the product
class, its `dwBuildNumber` field). -/
def GetStorageInfo (api : CascApi) (storage : Option PtrHandle)
    (storageInfoClass : Nat) (st : CascState) : Bool × Nat × CascState :=
  api.cascGetStorageInfo (rawGet storage) storageInfoClass st

/-- Embedding of `CASC::GetBuildNumber` (lines 84-91): returns the queried
build number on success and 0 on failure; prints nothing and never touches
the error state itself. -/
def GetBuildNumber (api : CascApi) (storage : Option PtrHandle)
    (st : CascState) : Nat × CascState × List String :=
  let r := GetStorageInfo api storage CascStorageProduct st
  if r.1 = true then (r.2.1, r.2.2, []) else (0, r.2.2, [])

/-- Embedding of `CASC::GetInstalledLocalesMask` (lines 93-100): same
pattern as `GetBuildNumber` with the installed-locales info class. -/
def GetInstalledLocalesMask (api : CascApi) (storage : Option PtrHandle)
    (st : CascState) : Nat × CascState × List String :=
  let r := GetStorageInfo api storage CascStorageInstalledLocales st
  if r.1 = true then (r.2.1, r.2.2, []) else (0, r.2.2, [])

/-- The open-flags computation shared by both `CASC::OpenFile` overloads
(lines 109-111 and 130-132): start from the open-by mode and or in
`CASC_OVERCOME_ENCRYPTED` when `zerofillEncryptedParts` is set. -/
def openFlagsFor (base : Nat) (zerofillEncryptedParts : Bool) : Nat :=
  if zerofillEncryptedParts = true then base ||| CASC_OVERCOME_ENCRYPTED
  else base

/-- Embedding of the by-name overload of `CASC::OpenFile` (lines 107-126).
Result: handle (`none` = empty `FileHandle()`), final error state, and the
stderr diagnostics.  On failure: capture `GetLastError()`, print only when
`printErrors`, best-effort `CascCloseFile`, restore the captured code. -/
def OpenFileByName (api : CascApi) (storage : Option PtrHandle)
    (fileName : String) (localeMask : Nat) (printErrors : Bool)
    (zerofillEncryptedParts : Bool) (st : CascState) :
    Option PtrHandle × CascState × List String :=
  let openFlags := openFlagsFor CASC_OPEN_BY_NAME zerofillEncryptedParts
  let r := api.cascOpenFile (rawGet storage) (FileSpec.name fileName)
    localeMask openFlags st
  if r.1 = true then
    (some r.2.1, r.2.2, [])
  else
    let lastError := r.2.2.lastError
    let log := if printErrors = true then
        ["Failed to open " ++ fileName ++ " in CASC storage: " ++
          HumanReadableCASCError lastError]
      else []
    let st2 := api.cascCloseFile r.2.1 r.2.2
    (none, { st2 with lastError := lastError }, log)

/-- Embedding of the by-file-data-id overload of `CASC::OpenFile`
(lines 128-147); identical to the by-name overload except for the open
mode, the `CASC_FILE_DATA_ID` argument and the diagnostic text. -/
def OpenFileById (api : CascApi) (storage : Option PtrHandle)
    (fileDataId : Nat) (localeMask : Nat) (printErrors : Bool)
    (zerofillEncryptedParts : Bool) (st : CascState) :
    Option PtrHandle × CascState × List String :=
  let openFlags := openFlagsFor CASC_OPEN_BY_FILEID zerofillEncryptedParts
  let r := api.cascOpenFile (rawGet storage) (FileSpec.fileDataId fileDataId)
    localeMask openFlags st
  if r.1 = true then
    (some r.2.1, r.2.2, [])
  else
    let lastError := r.2.2.lastError
    let log := if printErrors = true then
        ["Failed to open FileDataId " ++ toString fileDataId ++
          " in CASC storage: " ++ HumanReadableCASCError lastError]
      else []
    let st2 := api.cascCloseFile r.2.1 r.2.2
    (none, { st2 with lastError := lastError }, log)

/-- The seek origins passed by the wrapper: `FILE_BEGIN` (0) and
`FILE_CURRENT` (1). -/
inductive SeekMethod where
  | fileBegin : SeekMethod
  | fileCurrent : SeekMethod
deriving DecidableEq

/-- Reinterpretation of an unsigned 32-bit value as a signed `LONG`
(two's complement). -/
def toSigned32 (n : Nat) : Int :=
  if n < 2 ^ 31 then (n : Int) else (n : Int) - 2 ^ 32

/-- The two's-complement bit pattern of a signed 64-bit `LONGLONG`, as
produced by the `memcpy` of `position` into `LONG parts[2]` in
`CASC::SetFilePointer` (little-endian: `parts[0]` = low word,
`parts[1]` = high word). -/
def int64Bits (position : Int) : Nat := (position % 2 ^ 64).toNat

/-- Modelled from the spec: the state of an open CascLib file entry as
described in sections 3, 4.2 and 8 of the spec — a byte size, a read
cursor, the byte content, the set of offsets lying in encrypted regions
the library cannot decrypt, and whether the open request carried the
overcome-encrypted (zero-fill) flag.  CascLib itself is an external
library whose sources are not part of this repository. -/
structure ModelFile where
  size : Nat
  cursor : Nat
  content : Nat → Nat
  undecryptable : Nat → Bool
  overcomeEncrypted : Bool

/-- Modelled from the spec: the external `CascSetFilePointer` routine.
The offset is the signed 64-bit value formed from the low word and the
optional high word (when the high-word pointer is null, the low word
alone is the signed 32-bit offset); the origin is the start of the file
for `FILE_BEGIN` and the current cursor for `FILE_CURRENT`.  A resulting
position that is not within `[0, size]` is reported invalid with
`CASC_INVALID_POS` and the cursor does not move; otherwise the cursor
moves there and the low 32 bits of the new position are returned. -/
def cascSetFilePointer (file : ModelFile) (lowPart : Nat)
    (highPart : Option Nat) (method : SeekMethod) : Nat × ModelFile :=
  let offset : Int :=
    match highPart with
    | some hi => toSigned32 hi * 2 ^ 32 + (lowPart : Int)
    | none => toSigned32 lowPart
  let base : Int :=
    match method with
    | SeekMethod.fileBegin => 0
    | SeekMethod.fileCurrent => (file.cursor : Int)
  let target : Int := base + offset
  if 0 ≤ target ∧ target ≤ (file.size : Int) then
    (target.toNat % 2 ^ 32, { file with cursor := target.toNat })
  else
    (CASC_INVALID_POS, file)

/-- Embedding of `CASC::GetFilePointer` (lines 154-157) together with the
file state after the call: the source returns the `DWORD` result of
`CascSetFilePointer(file, 0, nullptr, FILE_CURRENT)` — a zero-offset
relative seek with a null high-word pointer. -/
def GetFilePointerSt (file : ModelFile) : Nat × ModelFile :=
  cascSetFilePointer file 0 none SeekMethod.fileCurrent

/-- The value actually returned by `CASC::GetFilePointer`. -/
def GetFilePointer (file : ModelFile) : Nat := (GetFilePointerSt file).1

/-- Embedding of `CASC::SetFilePointer` (lines 159-164): `memcpy` the
signed 64-bit position into two 32-bit words, seek from `FILE_BEGIN` with
them, and return whether the result differs from `CASC_INVALID_POS`. -/
def SetFilePointer (file : ModelFile) (position : Int) : Bool × ModelFile :=
  let parts0 := int64Bits position % 2 ^ 32
  let parts1 := int64Bits position / 2 ^ 32
  let r := cascSetFilePointer file parts0 (some parts1) SeekMethod.fileBegin
  (r.1 != CASC_INVALID_POS, r.2)

/-- Modelled from the spec: the external `CascReadFile` routine (spec
sections 4.2, 7 and 8).  It reads from the cursor up to the requested
count, clamped at end-of-file, reporting the bytes actually read; if the
span touches an undecryptable encrypted region and the file was opened
without the overcome-encrypted flag the read fails, otherwise
undecryptable bytes are zero-filled. -/
def cascReadFile (file : ModelFile) (bytesToRead : Nat) :
    Bool × List Nat × Nat × ModelFile :=
  if file.overcomeEncrypted = false ∧
      (List.range (min bytesToRead (file.size - file.cursor))).any
        (fun i => file.undecryptable (file.cursor + i)) = true then
    (false, [], 0, file)
  else
    (true,
     (List.range (min bytesToRead (file.size - file.cursor))).map (fun i =>
       if file.undecryptable (file.cursor + i) = true then 0
       else file.content (file.cursor + i)),
     min bytesToRead (file.size - file.cursor),
     { file with cursor :=
         file.cursor + min bytesToRead (file.size - file.cursor) })

/-- Embedding of `CASC::ReadFile` (lines 166-169): a direct pass-through
to `CascReadFile`.  Result: success flag, bytes delivered to the buffer,
the reported `bytesRead`, and the file state afterwards. -/
def ReadFile (file : ModelFile) (bytes : Nat) :
    Bool × List Nat × Nat × ModelFile :=
  cascReadFile file bytes

/-- Whether an open-flags word carries `CASC_OVERCOME_ENCRYPTED`. -/
def flagsOvercomeEncrypted (flags : Nat) : Bool :=
  flags &&& CASC_OVERCOME_ENCRYPTED != 0

end CASC

/-- A concrete CascLib environment for witnesses: every open fails leaving
error code 2 (`ERROR_FILE_NOT_FOUND`), every close clobbers the error state
with 999, and every storage-info query fails leaving error code 7. -/
def failEnv : CASC.CascApi where
  cascOpenStorage := fun _ _ _ => (false, CASC.PtrHandle.nullptr, ⟨2⟩)
  cascCloseStorage := fun _ _ => ⟨999⟩
  cascOpenFile := fun _ _ _ _ _ => (false, CASC.PtrHandle.nullptr, ⟨2⟩)
  cascCloseFile := fun _ _ => ⟨999⟩
  cascGetStorageInfo := fun _ _ _ => (false, 0, ⟨7⟩)

/-- Witness fixture: a plain (unencrypted) 100-byte file with the cursor
at the start. -/
def file100 : CASC.ModelFile where
  size := 100
  cursor := 0
  content := fun i => i % 251
  undecryptable := fun _ => false
  overcomeEncrypted := false

/-- Witness fixture: the spec's read scenario — a plain 100-byte file with
the cursor at byte 90. -/
def plainReadFile : CASC.ModelFile where
  size := 100
  cursor := 90
  content := fun i => i % 251
  undecryptable := fun _ => false
  overcomeEncrypted := false

/-- Witness fixture: a file whose cursor sits beyond 2^32
(at 2^32 + 5, within a size of 2^32 + 10). -/
def bigCursorFile : CASC.ModelFile where
  size := 4294967306
  cursor := 4294967301
  content := fun _ => 0
  undecryptable := fun _ => false
  overcomeEncrypted := false

/-- Witness fixture: a fully encrypted undecryptable 4-byte file opened
with the overcome-encrypted (zero-fill) flag. -/
def encFileOvercome : CASC.ModelFile where
  size := 4
  cursor := 0
  content := fun _ => 9
  undecryptable := fun _ => true
  overcomeEncrypted := true

/-- Witness fixture: the same encrypted file opened without the
overcome-encrypted flag. -/
def encFileNoKey : CASC.ModelFile where
  size := 4
  cursor := 0
  content := fun _ => 9
  undecryptable := fun _ => true
  overcomeEncrypted := false

/-- Claim C1: for every environment behaviour, path and locale mask, when
the underlying `CascOpenStorage` call fails, `OpenStorage` returns an
empty handle and the final observable last-error state equals the code
captured right after the failed open attempt — not anything the
best-effort `CascCloseStorage` call set. -/
theorem openStorage_failure_restores_open_error (api : CASC.CascApi)
    (path : String) (localeMask : Nat) (st : CASC.CascState)
    (hfail : (api.cascOpenStorage path localeMask st).1 = false) :
    (CASC.OpenStorage api path localeMask st).1 = none ∧
    (CASC.OpenStorage api path localeMask st).2.1.lastError =
      (api.cascOpenStorage path localeMask st).2.2.lastError := by
  simp [CASC.OpenStorage, hfail]

/-- Claim C1 witness: in `failEnv` the open attempt fails with code 2 and
the close call would overwrite the error state with 999, yet `OpenStorage`
returns the empty handle with last-error 2. -/
theorem openStorage_failure_witness :
    (CASC.OpenStorage failEnv "missing" 0 ⟨0⟩).1 = none ∧
    (CASC.OpenStorage failEnv "missing" 0 ⟨0⟩).2.1.lastError =
      (failEnv.cascOpenStorage "missing" 0 ⟨0⟩).2.2.lastError :=
  openStorage_failure_restores_open_error failEnv "missing" 0 ⟨0⟩ rfl

/-- Claim C3: for both `OpenFile` overloads, whenever the underlying
`CascOpenFile` call fails, the wrapper returns an empty handle, restores
the error code captured from the open attempt as the final last-error
state (after the best-effort close), and emits a diagnostic naming the
requested file or id exactly when `printErrors` is true. -/
theorem openFile_failure_behaviour (api : CASC.CascApi)
    (storage : Option CASC.PtrHandle) (fileName : String) (fileDataId : Nat)
    (localeMask : Nat) (printErrors zerofill : Bool) (st : CASC.CascState) :
    (((api.cascOpenFile (CASC.rawGet storage) (CASC.FileSpec.name fileName)
        localeMask (CASC.openFlagsFor CASC.CASC_OPEN_BY_NAME zerofill) st).1
          = false) →
      (CASC.OpenFileByName api storage fileName localeMask printErrors
          zerofill st).1 = none ∧
      (CASC.OpenFileByName api storage fileName localeMask printErrors
          zerofill st).2.1.lastError =
        (api.cascOpenFile (CASC.rawGet storage) (CASC.FileSpec.name fileName)
          localeMask (CASC.openFlagsFor CASC.CASC_OPEN_BY_NAME zerofill)
          st).2.2.lastError ∧
      ((CASC.OpenFileByName api storage fileName localeMask printErrors
          zerofill st).2.2 ≠ [] ↔ printErrors = true) ∧
      (printErrors = true →
        (CASC.OpenFileByName api storage fileName localeMask printErrors
            zerofill st).2.2 =
          ["Failed to open " ++ fileName ++ " in CASC storage: " ++
            CASC.HumanReadableCASCError
              (api.cascOpenFile (CASC.rawGet storage)
                (CASC.FileSpec.name fileName) localeMask
                (CASC.openFlagsFor CASC.CASC_OPEN_BY_NAME zerofill)
                st).2.2.lastError])) ∧
    (((api.cascOpenFile (CASC.rawGet storage)
        (CASC.FileSpec.fileDataId fileDataId) localeMask
        (CASC.openFlagsFor CASC.CASC_OPEN_BY_FILEID zerofill) st).1
          = false) →
      (CASC.OpenFileById api storage fileDataId localeMask printErrors
          zerofill st).1 = none ∧
      (CASC.OpenFileById api storage fileDataId localeMask printErrors
          zerofill st).2.1.lastError =
        (api.cascOpenFile (CASC.rawGet storage)
          (CASC.FileSpec.fileDataId fileDataId) localeMask
          (CASC.openFlagsFor CASC.CASC_OPEN_BY_FILEID zerofill)
          st).2.2.lastError ∧
      ((CASC.OpenFileById api storage fileDataId localeMask printErrors
          zerofill st).2.2 ≠ [] ↔ printErrors = true) ∧
      (printErrors = true →
        (CASC.OpenFileById api storage fileDataId localeMask printErrors
            zerofill st).2.2 =
          ["Failed to open FileDataId " ++ toString fileDataId ++
            " in CASC storage: " ++
            CASC.HumanReadableCASCError
              (api.cascOpenFile (CASC.rawGet storage)
                (CASC.FileSpec.fileDataId fileDataId) localeMask
                (CASC.openFlagsFor CASC.CASC_OPEN_BY_FILEID zerofill)
                st).2.2.lastError])) := by
  constructor
  · intro h
    refine ⟨by simp [CASC.OpenFileByName, h], by simp [CASC.OpenFileByName, h],
      ?_, ?_⟩
    · cases printErrors <;> simp [CASC.OpenFileByName, h]
    · intro hp
      simp [CASC.OpenFileByName, h, hp]
  · intro h
    refine ⟨by simp [CASC.OpenFileById, h], by simp [CASC.OpenFileById, h],
      ?_, ?_⟩
    · cases printErrors <;> simp [CASC.OpenFileById, h]
    · intro hp
      simp [CASC.OpenFileById, h, hp]

/-- Claim C3 witness: in `failEnv` (opens fail with code 2, closes clobber
the error state with 999), both overloads with `printErrors = true` return
the empty handle, keep last-error 2, and emit one diagnostic line each. -/
theorem openFile_failure_witness :
    (CASC.OpenFileByName failEnv (some (CASC.PtrHandle.valid 1)) "f.db2" 0
        true false ⟨0⟩).1 = none ∧
    (CASC.OpenFileByName failEnv (some (CASC.PtrHandle.valid 1)) "f.db2" 0
        true false ⟨0⟩).2.1.lastError = 2 ∧
    (CASC.OpenFileByName failEnv (some (CASC.PtrHandle.valid 1)) "f.db2" 0
        true false ⟨0⟩).2.2 =
      ["Failed to open f.db2 in CASC storage: FILE_NOT_FOUND"] ∧
    (CASC.OpenFileById failEnv (some (CASC.PtrHandle.valid 1)) 123 0
        true false ⟨0⟩).1 = none ∧
    (CASC.OpenFileById failEnv (some (CASC.PtrHandle.valid 1)) 123 0
        true false ⟨0⟩).2.1.lastError = 2 ∧
    (CASC.OpenFileById failEnv (some (CASC.PtrHandle.valid 1)) 123 0
        true false ⟨0⟩).2.2 =
      ["Failed to open FileDataId 123 in CASC storage: FILE_NOT_FOUND"] := by
  have t := openFile_failure_behaviour failEnv
    (some (CASC.PtrHandle.valid 1)) "f.db2" 123 0 true false ⟨0⟩
  obtain ⟨hn1, hn2, -, hn4⟩ := t.1 rfl
  obtain ⟨hi1, hi2, -, hi4⟩ := t.2 rfl
  exact ⟨hn1, hn2, by simpa using hn4 rfl, hi1, hi2, by simpa using hi4 rfl⟩

/-- Claim C6: for every environment behaviour and storage handle, when the
underlying storage-info query fails, `GetBuildNumber` and
`GetInstalledLocalesMask` return 0 silently: no diagnostic line is
produced and the resulting error state is exactly the one the query itself
left (this layer adds no error-state side effect). -/
theorem metadata_query_failure_silent (api : CASC.CascApi)
    (storage : Option CASC.PtrHandle) (st : CASC.CascState) :
    ((CASC.GetStorageInfo api storage CASC.CascStorageProduct st).1 = false →
      CASC.GetBuildNumber api storage st =
        (0, (CASC.GetStorageInfo api storage CASC.CascStorageProduct st).2.2,
          [])) ∧
    ((CASC.GetStorageInfo api storage CASC.CascStorageInstalledLocales st).1
        = false →
      CASC.GetInstalledLocalesMask api storage st =
        (0, (CASC.GetStorageInfo api storage
          CASC.CascStorageInstalledLocales st).2.2, [])) := by
  constructor
  · intro h
    simp [CASC.GetBuildNumber, h]
  · intro h
    simp [CASC.GetInstalledLocalesMask, h]

/-- Claim C6 witness: in `failEnv` every storage-info query fails leaving
error code 7; both metadata queries return 0, no log, and the query's own
post-state. -/
theorem metadata_query_failure_witness :
    CASC.GetBuildNumber failEnv (some (CASC.PtrHandle.valid 1)) ⟨0⟩ =
      (0, ⟨7⟩, []) ∧
    CASC.GetInstalledLocalesMask failEnv (some (CASC.PtrHandle.valid 1)) ⟨0⟩ =
      (0, ⟨7⟩, []) :=
  ⟨(metadata_query_failure_silent failEnv (some (CASC.PtrHandle.valid 1))
      ⟨0⟩).1 rfl,
   (metadata_query_failure_silent failEnv (some (CASC.PtrHandle.valid 1))
      ⟨0⟩).2 rfl⟩

/-- Claim C9: each deleter performs its underlying close call exactly when
the raw handle is neither null nor `INVALID_HANDLE_VALUE`; in particular
destroying an empty handle (raw pointer `rawGet none = nullptr`, as
returned by a failed open) performs no close call. -/
theorem deleters_guard_close (h : CASC.PtrHandle) :
    (CASC.CloseCall.closeStorage h ∈ CASC.StorageDeleter h ↔
      h ≠ CASC.PtrHandle.nullptr ∧ h ≠ CASC.PtrHandle.invalidHandleValue) ∧
    (CASC.CloseCall.closeFile h ∈ CASC.FileDeleter h ↔
      h ≠ CASC.PtrHandle.nullptr ∧ h ≠ CASC.PtrHandle.invalidHandleValue) ∧
    ((h = CASC.PtrHandle.nullptr ∨ h = CASC.PtrHandle.invalidHandleValue) →
      CASC.StorageDeleter h = [] ∧ CASC.FileDeleter h = []) ∧
    CASC.StorageDeleter (CASC.rawGet none) = [] ∧
    CASC.FileDeleter (CASC.rawGet none) = [] := by
  cases h <;>
    simp [CASC.StorageDeleter, CASC.FileDeleter, CASC.rawGet]

/-- Claim C2 counterexample input: zero is the defined code `ERROR_SUCCESS`
and decodes to "SUCCESS", not "UNKNOWN". -/
theorem humanReadableCASCError_zero_is_success :
    CASC.HumanReadableCASCError 0 = "SUCCESS" ∧ "SUCCESS" ≠ "UNKNOWN" := by
  constructor
  · rfl
  · decide

/-- Claim C2 (amended): `HumanReadableCASCError` is a pure total function:
each of the sixteen defined status codes returns exactly its fixed label
(zero being the defined code `ERROR_SUCCESS`, returning "SUCCESS"), and
every 32-bit code outside the defined set — including the image of the
negative input -1 and the max 32-bit integer — returns "UNKNOWN". -/
theorem humanReadableCASCError_total_spec (e : Nat)
    (h : e ∉ CASC.definedCASCErrorCodes) :
    CASC.HumanReadableCASCError CASC.ERROR_SUCCESS = "SUCCESS" ∧
    CASC.HumanReadableCASCError CASC.ERROR_FILE_CORRUPT = "FILE_CORRUPT" ∧
    CASC.HumanReadableCASCError CASC.ERROR_CAN_NOT_COMPLETE = "CAN_NOT_COMPLETE" ∧
    CASC.HumanReadableCASCError CASC.ERROR_HANDLE_EOF = "HANDLE_EOF" ∧
    CASC.HumanReadableCASCError CASC.ERROR_NO_MORE_FILES = "NO_MORE_FILES" ∧
    CASC.HumanReadableCASCError CASC.ERROR_BAD_FORMAT = "BAD_FORMAT" ∧
    CASC.HumanReadableCASCError CASC.ERROR_INSUFFICIENT_BUFFER = "INSUFFICIENT_BUFFER" ∧
    CASC.HumanReadableCASCError CASC.ERROR_ALREADY_EXISTS = "ALREADY_EXISTS" ∧
    CASC.HumanReadableCASCError CASC.ERROR_DISK_FULL = "DISK_FULL" ∧
    CASC.HumanReadableCASCError CASC.ERROR_INVALID_PARAMETER = "INVALID_PARAMETER" ∧
    CASC.HumanReadableCASCError CASC.ERROR_NOT_SUPPORTED = "NOT_SUPPORTED" ∧
    CASC.HumanReadableCASCError CASC.ERROR_NOT_ENOUGH_MEMORY = "NOT_ENOUGH_MEMORY" ∧
    CASC.HumanReadableCASCError CASC.ERROR_INVALID_HANDLE = "INVALID_HANDLE" ∧
    CASC.HumanReadableCASCError CASC.ERROR_ACCESS_DENIED = "ACCESS_DENIED" ∧
    CASC.HumanReadableCASCError CASC.ERROR_FILE_NOT_FOUND = "FILE_NOT_FOUND" ∧
    CASC.HumanReadableCASCError CASC.ERROR_FILE_ENCRYPTED = "FILE_ENCRYPTED" ∧
    CASC.HumanReadableCASCError e = "UNKNOWN" := by
  simp only [CASC.definedCASCErrorCodes, List.mem_cons, List.not_mem_nil,
    not_or] at h
  refine ⟨rfl, rfl, rfl, rfl, rfl, rfl, rfl, rfl, rfl, rfl, rfl, rfl, rfl,
    rfl, rfl, rfl, ?_⟩
  obtain ⟨h0, h1, h2, h3, h4, h5, h6, h7, h8, h9, h10, h11, h12, h13, h14,
    h15, -⟩ := h
  simp only [CASC.HumanReadableCASCError, CASC.ERROR_SUCCESS,
    CASC.ERROR_FILE_CORRUPT, CASC.ERROR_CAN_NOT_COMPLETE,
    CASC.ERROR_HANDLE_EOF, CASC.ERROR_NO_MORE_FILES, CASC.ERROR_BAD_FORMAT,
    CASC.ERROR_INSUFFICIENT_BUFFER, CASC.ERROR_ALREADY_EXISTS,
    CASC.ERROR_DISK_FULL, CASC.ERROR_INVALID_PARAMETER,
    CASC.ERROR_NOT_SUPPORTED, CASC.ERROR_NOT_ENOUGH_MEMORY,
    CASC.ERROR_INVALID_HANDLE, CASC.ERROR_ACCESS_DENIED,
    CASC.ERROR_FILE_NOT_FOUND, CASC.ERROR_FILE_ENCRYPTED] at *
  simp [h0, h1, h2, h3, h4, h5, h6, h7, h8, h9, h10, h11, h12, h13, h14, h15]

/-- Claim C2 witness: the undefined-code clause evaluated at the image of
-1 (which converts to the max 32-bit integer 4294967295). -/
theorem humanReadableCASCError_total_spec_witness :
    CASC.toDWORD (-1) = 4294967295 ∧
    (4294967295 : Nat) ∉ CASC.definedCASCErrorCodes ∧
    CASC.HumanReadableCASCError 4294967295 = "UNKNOWN" :=
  ⟨by decide,
   by decide,
   (humanReadableCASCError_total_spec 4294967295 (by decide)).2.2.2.2.2.2.2.2.2.2.2.2.2.2.2.2⟩

/-- Helper for claim C5: the `memcpy` decomposition of a signed 64-bit
position into a low and a high 32-bit word recombines (high word signed,
low word unsigned) to the original position. -/
theorem int64_split_combine (p : Int) (h1 : -(2 ^ 63) ≤ p)
    (h2 : p < 2 ^ 63) :
    CASC.toSigned32 (CASC.int64Bits p / 2 ^ 32) * 2 ^ 32 +
      ((CASC.int64Bits p % 2 ^ 32 : Nat) : Int) = p := by
  rw [show ((2 : Int) ^ 63) = 9223372036854775808 from by norm_num] at h1 h2
  have hn : ((CASC.int64Bits p : Nat) : Int) = p % 18446744073709551616 := by
    unfold CASC.int64Bits
    rw [show ((2 : Int) ^ 64) = 18446744073709551616 from by norm_num]
    exact Int.toNat_of_nonneg (Int.emod_nonneg p (by norm_num))
  unfold CASC.toSigned32
  rw [show ((2 : Nat) ^ 32) = 4294967296 from by norm_num,
    show ((2 : Nat) ^ 31) = 2147483648 from by norm_num,
    show ((2 : Int) ^ 32) = 4294967296 from by norm_num]
  split_ifs with hcond
  · omega
  · omega

/-- Helper: a zero-offset relative seek with a null high-word pointer (the
body of `GetFilePointer`) reports the low 32 bits of the cursor. -/
theorem getFilePointer_eval (g : CASC.ModelFile) (hg : g.cursor ≤ g.size) :
    CASC.GetFilePointer g = g.cursor % 2 ^ 32 := by
  have ht0 : CASC.toSigned32 0 = 0 := by decide
  simp only [CASC.GetFilePointer, CASC.GetFilePointerSt,
    CASC.cascSetFilePointer, ht0, add_zero]
  rw [if_pos ⟨Int.natCast_nonneg g.cursor, by exact_mod_cast hg⟩]
  simp

/-- Helper: the zero-offset relative seek performed by `GetFilePointer`
leaves the file state unchanged. -/
theorem getFilePointerSt_nomove (g : CASC.ModelFile) :
    (CASC.GetFilePointerSt g).2 = g := by
  have ht0 : CASC.toSigned32 0 = 0 := by decide
  simp only [CASC.GetFilePointerSt, CASC.cascSetFilePointer, ht0, add_zero]
  split_ifs with h
  · simp
  · rfl

/-- Helper: `SetFilePointer` at a nonnegative position below 2^32 places
the cursor exactly there when the position is within the file, and
reports failure when it is past end-of-file. -/
theorem setFilePointer_small (file : CASC.ModelFile) (p : Nat)
    (hp : p < 2 ^ 32) :
    (p ≤ file.size →
      (CASC.SetFilePointer file (p : Int)).2 = { file with cursor := p }) ∧
    (file.size < p → (CASC.SetFilePointer file (p : Int)).1 = false) := by
  have ht0 : CASC.toSigned32 0 = 0 := by decide
  have hbits0 : CASC.int64Bits (p : Int) = p := by
    unfold CASC.int64Bits
    have hp64 : (p : Int) < 2 ^ 64 := by
      have hc : (p : Int) < 2 ^ 32 := by exact_mod_cast hp
      have h2 : (2 : Int) ^ 32 < 2 ^ 64 := by norm_num
      omega
    rw [Int.emod_eq_of_lt (Int.natCast_nonneg p) hp64]
    exact Int.toNat_natCast p
  have hparts0 : CASC.int64Bits (p : Int) % 2 ^ 32 = p := by
    rw [hbits0]
    exact Nat.mod_eq_of_lt hp
  have hparts1 : CASC.int64Bits (p : Int) / 2 ^ 32 = 0 := by
    rw [hbits0]
    exact Nat.div_eq_of_lt hp
  constructor
  · intro hle
    simp only [CASC.SetFilePointer, CASC.cascSetFilePointer, hparts0,
      hparts1, ht0, zero_mul, zero_add]
    rw [if_pos ⟨Int.natCast_nonneg p, by exact_mod_cast hle⟩]
    simp
  · intro hgt
    simp only [CASC.SetFilePointer, CASC.cascSetFilePointer, hparts0,
      hparts1, ht0, zero_mul, zero_add]
    rw [if_neg (by
      rintro ⟨-, hle⟩
      exact absurd (show p ≤ file.size by exact_mod_cast hle)
        (Nat.not_le_of_lt hgt))]
    simp

/-- Claim C5: `SetFilePointer` decomposes the signed 64-bit position into
two 32-bit halves that recombine to the position, forwards exactly those
halves (low as primary argument, high through the pointer argument) to
the underlying call with origin `FILE_BEGIN`, returns false exactly when
the underlying call reports `CASC_INVALID_POS`, and on a valid position
lands the cursor at that absolute position. -/
theorem setFilePointer_spec (file : CASC.ModelFile) (position : Int)
    (h1 : -(2 ^ 63) ≤ position) (h2 : position < 2 ^ 63) :
    CASC.int64Bits position % 2 ^ 32 < 2 ^ 32 ∧
    CASC.int64Bits position / 2 ^ 32 < 2 ^ 32 ∧
    CASC.toSigned32 (CASC.int64Bits position / 2 ^ 32) * 2 ^ 32 +
      ((CASC.int64Bits position % 2 ^ 32 : Nat) : Int) = position ∧
    CASC.SetFilePointer file position =
      ((CASC.cascSetFilePointer file (CASC.int64Bits position % 2 ^ 32)
          (some (CASC.int64Bits position / 2 ^ 32))
          CASC.SeekMethod.fileBegin).1 != CASC.CASC_INVALID_POS,
        (CASC.cascSetFilePointer file (CASC.int64Bits position % 2 ^ 32)
          (some (CASC.int64Bits position / 2 ^ 32))
          CASC.SeekMethod.fileBegin).2) ∧
    ((CASC.SetFilePointer file position).1 = false ↔
      (CASC.cascSetFilePointer file (CASC.int64Bits position % 2 ^ 32)
        (some (CASC.int64Bits position / 2 ^ 32))
        CASC.SeekMethod.fileBegin).1 = CASC.CASC_INVALID_POS) ∧
    (0 ≤ position → position ≤ (file.size : Int) →
      ((CASC.SetFilePointer file position).2.cursor : Int) = position) := by
  have hblt : CASC.int64Bits position < 2 ^ 64 := by
    unfold CASC.int64Bits
    have h0 : (0 : Int) ≤ position % 2 ^ 64 :=
      Int.emod_nonneg position (by norm_num)
    have hlt : position % 2 ^ 64 < 2 ^ 64 :=
      Int.emod_lt_of_pos position (by norm_num)
    rw [show ((2 : Int) ^ 64) = 18446744073709551616 from by norm_num]
      at h0 hlt ⊢
    rw [show ((2 : Nat) ^ 64) = 18446744073709551616 from by norm_num]
    omega
  have hcomb := int64_split_combine position h1 h2
  refine ⟨Nat.mod_lt _ (by norm_num), ?_, hcomb, rfl, ?_, ?_⟩
  · rw [show ((2 : Nat) ^ 32) = 4294967296 from by norm_num]
    rw [show ((2 : Nat) ^ 64) = 18446744073709551616 from by norm_num]
      at hblt
    omega
  · simp only [CASC.SetFilePointer, bne_eq_false_iff_eq]
  · intro hp0 hps
    simp only [CASC.SetFilePointer, CASC.cascSetFilePointer]
    rw [hcomb, zero_add, if_pos ⟨hp0, hps⟩]
    exact Int.toNat_of_nonneg hp0

/-- Claim C5 witness: the recombination evaluated at the negative position
-5, and the absolute-seek conclusion evaluated at position 60 in a
100-byte file (the cursor lands on 60). -/
theorem setFilePointer_spec_witness :
    CASC.toSigned32 (CASC.int64Bits (-5) / 2 ^ 32) * 2 ^ 32 +
      ((CASC.int64Bits (-5) % 2 ^ 32 : Nat) : Int) = -5 ∧
    ((CASC.SetFilePointer file100 60).2.cursor : Int) = 60 :=
  ⟨(setFilePointer_spec file100 (-5) (by decide) (by decide)).2.2.1,
   (setFilePointer_spec file100 60 (by decide)
      (by decide)).2.2.2.2.2 (by decide) (by decide)⟩

/-- Claim C4: after a successful `SetFilePointer` to a position p below
2^32, `GetFilePointer` returns exactly p; and `GetFilePointer` never
moves the read cursor (it is a zero-offset relative seek). -/
theorem setThenGet_returns_position (file : CASC.ModelFile) (p : Nat)
    (hp : p < 2 ^ 32)
    (hsucc : (CASC.SetFilePointer file (p : Int)).1 = true) :
    CASC.GetFilePointer (CASC.SetFilePointer file (p : Int)).2 = p ∧
    ∀ g : CASC.ModelFile, (CASC.GetFilePointerSt g).2 = g := by
  refine ⟨?_, getFilePointerSt_nomove⟩
  by_cases hle : p ≤ file.size
  · rw [(setFilePointer_small file p hp).1 hle]
    rw [getFilePointer_eval { file with cursor := p } (by simpa using hle)]
    simpa using Nat.mod_eq_of_lt hp
  · exfalso
    rw [(setFilePointer_small file p hp).2 (Nat.lt_of_not_le hle)] at hsucc
    exact Bool.false_ne_true hsucc

/-- Claim C4 witness: in a plain 100-byte file, seek-then-tell returns the
position just set at offset 0, a mid-file offset 50, and the end-of-file
offset 100. -/
theorem setThenGet_witness :
    CASC.GetFilePointer (CASC.SetFilePointer file100 ((0 : Nat) : Int)).2
      = 0 ∧
    CASC.GetFilePointer (CASC.SetFilePointer file100 ((50 : Nat) : Int)).2
      = 50 ∧
    CASC.GetFilePointer (CASC.SetFilePointer file100 ((100 : Nat) : Int)).2
      = 100 :=
  ⟨(setThenGet_returns_position file100 0 (by decide) (by decide)).1,
   (setThenGet_returns_position file100 50 (by decide) (by decide)).1,
   (setThenGet_returns_position file100 100 (by decide) (by decide)).1⟩

/-- Claim C10: `GetFilePointer` performs its zero-offset relative seek
with a null high-word pointer (`none`) and returns only the low 32 bits
of the cursor: any position is reported truncated modulo 2^32. -/
theorem getFilePointer_truncates (file : CASC.ModelFile)
    (hc : file.cursor ≤ file.size) :
    CASC.GetFilePointerSt file =
      CASC.cascSetFilePointer file 0 none CASC.SeekMethod.fileCurrent ∧
    CASC.GetFilePointer file = file.cursor % 2 ^ 32 :=
  ⟨rfl, getFilePointer_eval file hc⟩

/-- Claim C10 witness: with the cursor at 2^32 + 5, `GetFilePointer`
reports 5. -/
theorem getFilePointer_truncates_witness :
    CASC.GetFilePointer bigCursorFile = 5 :=
  ((getFilePointer_truncates bigCursorFile (by decide)).2).trans (by decide)

/-- Claim C8: a read requesting more bytes than remain before end-of-file
(over a readable span) succeeds and reports exactly the remaining byte
count, which is smaller than the requested count. -/
theorem readFile_eof_clamps (file : CASC.ModelFile) (bytes : Nat)
    (hreq : file.size - file.cursor < bytes)
    (hok : file.overcomeEncrypted = true ∨
      (List.range (file.size - file.cursor)).any
        (fun i => file.undecryptable (file.cursor + i)) = false) :
    (CASC.ReadFile file bytes).1 = true ∧
    (CASC.ReadFile file bytes).2.2.1 = file.size - file.cursor ∧
    (CASC.ReadFile file bytes).2.2.1 < bytes := by
  have hmin : min bytes (file.size - file.cursor) = file.size - file.cursor :=
    Nat.min_eq_right (Nat.le_of_lt hreq)
  have hcond : ¬(file.overcomeEncrypted = false ∧
      (List.range (min bytes (file.size - file.cursor))).any
        (fun i => file.undecryptable (file.cursor + i)) = true) := by
    rw [hmin]
    rcases hok with h | h <;> simp [h]
  unfold CASC.ReadFile CASC.cascReadFile
  rw [if_neg hcond]
  refine ⟨rfl, hmin, ?_⟩
  show min bytes (file.size - file.cursor) < bytes
  omega

/-- Claim C8 witness: the spec scenario — a 100-byte file with the cursor
at byte 90 and a 50-byte request yields success with 10 bytes read. -/
theorem readFile_eof_clamps_witness :
    (CASC.ReadFile plainReadFile 50).1 = true ∧
    (CASC.ReadFile plainReadFile 50).2.2.1 = 10 ∧
    (CASC.ReadFile plainReadFile 50).2.2.1 < 50 :=
  readFile_eof_clamps plainReadFile 50 (by decide) (Or.inr (by decide))

/-- Claim C7: for both open modes, the open-flags word carries
`CASC_OVERCOME_ENCRYPTED` exactly when `zerofillEncryptedParts` is set;
with the flag, a read over encrypted undecryptable bytes succeeds and
delivers zero for them, and without the flag a read whose span contains
an undecryptable byte fails. -/
theorem zerofill_flag_behaviour (z : Bool) :
    CASC.flagsOvercomeEncrypted
      (CASC.openFlagsFor CASC.CASC_OPEN_BY_NAME z) = z ∧
    CASC.flagsOvercomeEncrypted
      (CASC.openFlagsFor CASC.CASC_OPEN_BY_FILEID z) = z ∧
    (∀ (file : CASC.ModelFile) (n : Nat),
      file.overcomeEncrypted = true →
      (CASC.cascReadFile file n).1 = true ∧
      ∀ i, i < min n (file.size - file.cursor) →
        file.undecryptable (file.cursor + i) = true →
        ((CASC.cascReadFile file n).2.1)[i]? = some 0) ∧
    (∀ (file : CASC.ModelFile) (n : Nat),
      file.overcomeEncrypted = false →
      (List.range (min n (file.size - file.cursor))).any
        (fun i => file.undecryptable (file.cursor + i)) = true →
      (CASC.cascReadFile file n).1 = false) := by
  refine ⟨by cases z <;> decide, by cases z <;> decide, ?_, ?_⟩
  · intro file n hov
    constructor
    · simp [CASC.cascReadFile, hov]
    · intro i hi hu
      simp [CASC.cascReadFile, hov, List.getElem?_map, List.getElem?_range,
        hi, hu]
  · intro file n hov hany
    simp [CASC.cascReadFile, hov, hany]

/-- Claim C7 witness: the flag computation at both open modes, a
zero-filled successful read of a fully encrypted file opened with the
flag, and the failing read of the same file opened without it. -/
theorem zerofill_flag_witness :
    CASC.flagsOvercomeEncrypted
      (CASC.openFlagsFor CASC.CASC_OPEN_BY_NAME true) = true ∧
    CASC.flagsOvercomeEncrypted
      (CASC.openFlagsFor CASC.CASC_OPEN_BY_FILEID false) = false ∧
    (CASC.cascReadFile encFileOvercome 4).1 = true ∧
    ((CASC.cascReadFile encFileOvercome 4).2.1)[0]? = some 0 ∧
    (CASC.cascReadFile encFileNoKey 4).1 = false :=
  ⟨(zerofill_flag_behaviour true).1,
   (zerofill_flag_behaviour false).2.1,
   ((zerofill_flag_behaviour true).2.2.1 encFileOvercome 4 rfl).1,
   ((zerofill_flag_behaviour true).2.2.1 encFileOvercome 4 rfl).2 0
     (by decide) rfl,
   (zerofill_flag_behaviour true).2.2.2 encFileNoKey 4 rfl (by decide)⟩
